import Mathlib

/-!
Verification of the RealEstate-US pipeline (search/extract → market narrative →
valuation narrative → synthesis) against its specification.

The development shallowly embeds the Python code: Python `str` values become
Lean `String`s manipulated through small executable primitives over their
character lists (mirroring Python's sequence-of-characters semantics), the two
external services (Firecrawl extraction, Gemini LLM) become stubbed response
environments passed explicitly, and the Streamlit progress callback becomes an
explicit event trace.  Machine integers are `Nat`/`Int` (Python ints are
unbounded, so no wrap-around modelling is needed).
-/

namespace RealEstateUS

/-! ## Python string primitives

Executable models of the Python `str` operations the repository uses:
`split(sep)`, `split()`, `strip()`, `lower()`, `upper()`, `replace(old, new)`,
`startswith`, the `in` containment test, and `str.isdigit` filtering.  All are
defined over `List Char` with a fuel argument (bounded by the string length)
where structural recursion does not apply directly.
-/

/-- A single-quote character as a string (used when reproducing Python `repr`
output for lists of strings). -/
def sq : String := String.singleton (Char.ofNat 39)

/-- Python `str.lower()` (ASCII-adequate model). -/
def pyLower (s : String) : String := ⟨s.data.map Char.toLower⟩

/-- Python `str.upper()` (ASCII-adequate model). -/
def pyUpper (s : String) : String := ⟨s.data.map Char.toUpper⟩

/-- Python `str.strip()`: drop leading and trailing whitespace. -/
def pyStrip (s : String) : String :=
  ⟨((s.data.dropWhile Char.isWhitespace).reverse.dropWhile Char.isWhitespace).reverse⟩

/-- Python `needle in haystack` on character lists (for non-empty needles). -/
def containsGo (needle : List Char) : List Char → Bool
  | [] => needle.isPrefixOf []
  | c :: rest => needle.isPrefixOf (c :: rest) || containsGo needle rest

/-- Python `needle in haystack` for strings. -/
def pyContains (haystack needle : String) : Bool :=
  containsGo needle.data haystack.data

/-- Python `str.startswith`. -/
def pyStartsWith (s t : String) : Bool := t.data.isPrefixOf s.data

/-- Fueled worker for `str.replace(old, new)`: leftmost, non-overlapping.
`old` is non-empty at every use site, so fuel `= length` suffices. -/
def replaceGo (old new : List Char) : Nat → List Char → List Char
  | _, [] => []
  | 0, s => s
  | fuel + 1, c :: rest =>
    if old.isPrefixOf (c :: rest) then
      new ++ replaceGo old new fuel ((c :: rest).drop old.length)
    else
      c :: replaceGo old new fuel rest

/-- Python `s.replace(old, new)` (for non-empty `old`). -/
def pyReplace (old new s : String) : String :=
  ⟨replaceGo old.data new.data s.data.length s.data⟩

/-- Fueled worker for `str.split(sep)` with a non-empty separator: `acc` holds
the current piece reversed. -/
def splitOnGo (sep : List Char) : Nat → List Char → List Char → List (List Char)
  | _, acc, [] => [acc.reverse]
  | 0, acc, s => [acc.reverse ++ s]
  | fuel + 1, acc, c :: rest =>
    if sep.isPrefixOf (c :: rest) then
      acc.reverse :: splitOnGo sep fuel [] ((c :: rest).drop sep.length)
    else
      splitOnGo sep fuel (c :: acc) rest

/-- Python `s.split(sep)` for a non-empty separator. -/
def pySplitOn (sep s : String) : List String :=
  (splitOnGo sep.data (s.data.length) [] s.data).map (fun l => ⟨l⟩)

/-- Fueled worker for Python `str.split()` (split on whitespace runs,
discarding empty pieces). -/
def splitWsGo : Nat → List Char → List (List Char)
  | _, [] => []
  | 0, s => [s]
  | fuel + 1, c :: rest =>
    if c.isWhitespace then splitWsGo fuel rest
    else
      let piece := (c :: rest).takeWhile (fun d => !d.isWhitespace)
      piece :: splitWsGo fuel ((c :: rest).dropWhile (fun d => !d.isWhitespace))

/-- Python `s.split()` (no separator: whitespace runs, no empties). -/
def pySplitWs (s : String) : List String :=
  (splitWsGo s.data.length s.data).map (fun l => ⟨l⟩)

/-- Python `''.join(filter(str.isdigit, s))`. -/
def pyDigits (s : String) : String := ⟨s.data.filter Char.isDigit⟩

/-- Python `int()` on a non-empty all-digit string. -/
def digitsToNat (s : String) : Nat :=
  s.data.foldl (fun a c => a * 10 + (c.toNat - 48)) 0

/-- Fueled decimal digit rendering (most significant first). -/
def natDigsGo : Nat → Nat → List Char
  | 0, _ => []
  | fuel + 1, n =>
    if n < 10 then [Char.ofNat (48 + n)]
    else natDigsGo fuel (n / 10) ++ [Char.ofNat (48 + n % 10)]

/-- Python `str(n)` for a non-negative integer. -/
def natStr (n : Nat) : String := ⟨natDigsGo (n + 1) n⟩

/-- Python `str(i)` for an arbitrary integer. -/
def intStr (i : Int) : String :=
  if i < 0 then "-" ++ natStr i.natAbs else natStr i.toNat

/-- Python `repr` of a list of strings, as interpolated by an f-string
(`['Zillow', 'Trulia']`); escaping inside the names is not modelled since the
site identifiers contain no quotes. -/
def pyListRepr (l : List String) : String :=
  "[" ++ String.intercalate ", " (l.map (fun s => sq ++ s ++ sq)) ++ "]"

/-! ## Data model (src/schemas/models.py and the dicts the services exchange)

Property records travel through the pipeline as loosely-typed dictionaries
(the orchestrator reads them with `prop.get(key, default)` / `getattr`); a
record is modelled as a structure of optional fields, one per key the code
ever reads or the schema declares, with `Option.getD` standing for the
defaulted lookup.
-/

/-- One property listing as produced by the extraction service
(cf. `PropertyDetails` in src/schemas/models.py; every field the code reads). -/
structure PropRecord where
  address : Option String := none
  price : Option String := none
  bedrooms : Option String := none
  bathrooms : Option String := none
  square_feet : Option String := none
  property_type : Option String := none
  description : Option String := none
  features : Option (List String) := none
  images : Option (List String) := none
  agent_contact : Option String := none
  listing_url : Option String := none
deriving DecidableEq

/-- The user search criteria dictionary (read with `.get(key, 'Any')`). -/
structure Criteria where
  budget_range : Option String := none
  property_type : Option String := none
  bedrooms : Option String := none
  bathrooms : Option String := none
  min_sqft : Option String := none
  special_features : Option String := none
deriving DecidableEq

/-! ## Extraction Client (src/scraper/firecrawl_agent.py)

`DirectFirecrawlAgent.find_properties_direct` builds one search URL per
selected site, calls `firecrawl.extract`, normalizes the heterogeneous
response shapes, optionally retries once without a schema, and returns either
a success dictionary or an `{"error": ...}` dictionary.  The external service
is stubbed by an `ExtractEnv` carrying the outcome of the first call and of
the (at most one) fallback call; the model additionally returns the number of
`extract` calls issued, so call-count properties are statable.
-/

/-- The known listing sites, in the insertion order of the `search_urls`
dictionary. -/
inductive Site where
  | zillow
  | realtor
  | trulia
  | homes
deriving DecidableEq

/-- The dictionary key naming each site. -/
def siteName : Site → String
  | .zillow => "Zillow"
  | .realtor => "Realtor.com"
  | .trulia => "Trulia"
  | .homes => "Homes.com"

/-- `search_urls.items()` iteration order. -/
def knownSites : List Site := [.zillow, .realtor, .trulia, .homes]

/-- `city.replace(' ', '-').lower()`. -/
def cityFormatted (city : String) : String := pyLower (pyReplace " " "-" city)

/-- `state.upper() if state else ''`. -/
def stateUpper (state : String) : String := if state = "" then "" else pyUpper state

/-- `state.lower() if state else ''`. -/
def stateLower (state : String) : String := if state = "" then "" else pyLower state

/-- `city.replace(' ', '_')` — Trulia uses underscores for spaces. -/
def cityTrulia (city : String) : String := pyReplace " " "_" city

/-- The `search_urls` templates of `find_properties_direct`. -/
def siteUrl (s : Site) (city state : String) : String :=
  match s with
  | .zillow =>
      "https://www.zillow.com/homes/for_sale/" ++ cityFormatted city ++ "-" ++
        stateUpper state ++ "/"
  | .realtor =>
      "https://www.realtor.com/realestateandhomes-search/" ++ cityFormatted city ++ "_" ++
        stateUpper state ++ "/pg-1"
  | .trulia =>
      "https://www.trulia.com/" ++ stateUpper state ++ "/" ++ cityTrulia city ++ "/"
  | .homes =>
      "https://www.homes.com/homes-for-sale/" ++ cityFormatted city ++ "-" ++
        stateLower state ++ "/"

/-- `urls_to_search = [url for site, url in search_urls.items() if site in selected_websites]`. -/
def urlsToSearch (city state : String) (selected : List String) : List String :=
  (knownSites.filter (fun s => decide (siteName s ∈ selected))).map
    (fun s => siteUrl s city state)

/-- The `data` payload of an extraction response: `properties` and
`total_count` as read by `.get('properties', [])` / `.get('total_count', 0)`.
`total_count` is the service's self-reported count (an `int`). -/
structure RData where
  properties : List PropRecord
  total_count : Int
deriving DecidableEq

/-- The heterogeneous shapes `find_properties_direct` normalizes: an object
with a `success` flag and an optional `data` attribute, a plain mapping with
`success`/`data` keys, or anything else. -/
inductive ExtractResponse where
  | obj (success : Bool) (data : Option RData)
  | dict (success : Bool) (data : RData)
  | other
deriving DecidableEq

/-- Outcome of one call to the external service: a raised exception carrying
`str(e)`, or a returned response. -/
inductive CallOutcome where
  | raised (e : String)
  | returned (r : ExtractResponse)
deriving DecidableEq

/-- Stub of the external Firecrawl service: the outcome of the first
`extract` call and of the (at most one) schema-free retry. -/
structure ExtractEnv where
  first : CallOutcome
  fallback : CallOutcome
deriving DecidableEq

/-- Normalization of the first response (lines 120-133): `properties` and
`total_count` are read from `data` when the success flag is set (and, for the
object shape, when `data` is present); every other shape yields `([], 0)`. -/
def normalizeFirst : ExtractResponse → List PropRecord × Int
  | .obj true (some d) => (d.properties, d.total_count)
  | .obj true none => ([], 0)
  | .dict true d => (d.properties, d.total_count)
  | _ => ([], 0)

/-- Normalization of the retry response (lines 153-163): only a successful
object carrying a dict `data`, or a successful mapping, updates the result;
any other shape leaves the original values standing (`none`). -/
def normalizeRetry : ExtractResponse → Option (List PropRecord × Int)
  | .obj true (some d) => some (d.properties, d.total_count)
  | .dict true d => some (d.properties, d.total_count)
  | _ => none

/-- `if len(properties) == 0 and total_count > 0:` — the fallback trigger. -/
def fallbackTriggered (props : List PropRecord) (total : Int) : Bool :=
  props.length == 0 && total > 0

/-- The inner `try` around the retry: a raised exception is swallowed and the
original `(properties, total_count)` pair stands; an unusable shape likewise. -/
def applyFallback (env : ExtractEnv) (pt : List PropRecord × Int) :
    List PropRecord × Int :=
  match env.fallback with
  | .raised _ => pt
  | .returned r =>
    match normalizeRetry r with
    | some pt2 => pt2
    | none => pt

/-- The `(properties, total_count)` pair after the (possibly skipped)
fallback, given that the first call returned; `([], 0)` if it raised. -/
def postFallbackPT (env : ExtractEnv) : List PropRecord × Int :=
  match env.first with
  | .raised _ => ([], 0)
  | .returned r =>
    let pt := normalizeFirst r
    if fallbackTriggered pt.1 pt.2 then applyFallback env pt else pt

/-- Result dictionary of `find_properties_direct`: either `{"error": msg}` or
`{'success': True, 'properties': ..., 'total_count': ..., 'source_websites': ...}`. -/
inductive FindResult where
  | error (msg : String)
  | success (properties : List PropRecord) (total_count : Nat)
      (source_websites : List String)
deriving DecidableEq

/-- `True` exactly on the `{"error": ...}` dictionary. -/
def FindResult.isError : FindResult → Bool
  | .error _ => true
  | .success _ _ _ => false

/-- The diagnostic error message built when no properties were extracted
(lines 178-198), reproduced verbatim. -/
def bigErrorMsg (total : Int) (propsLen urlsLen : Nat) (selected : List String) :
    String :=
  "No properties extracted despite finding " ++ intStr total ++ " listings.\n" ++
  "                \n" ++
  "POSSIBLE CAUSES:\n" ++
  "1. Website structure changed - pages may require JavaScript rendering\n" ++
  "2. Website blocking automated requests or showing captcha\n" ++
  "3. Dynamic content not being captured properly\n" ++
  "4. Firecrawl schema validation too strict for page format\n" ++
  "\n" ++
  "SUGGESTIONS TO TRY:\n" ++
  "1. Refresh and try again - temporary website issues\n" ++
  "2. Select different websites (Zillow, Realtor.com, Trulia, Homes.com)\n" ++
  "3. Use broader search criteria (Any bedrooms, Any type, etc.)\n" ++
  "4. Check Internet connection and website availability\n" ++
  "\n" ++
  "DEBUG INFO:\n" ++
  "- Total listings detected: " ++ intStr total ++ "\n" ++
  "- Properties extracted: " ++ natStr propsLen ++ "\n" ++
  "- URLs searched: " ++ natStr urlsLen ++ "\n" ++
  "- Selected websites: " ++ pyListRepr selected ++ "\n" ++
  "\n" ++
  "TECHNICAL: Schema extraction may have failed due to page structure changes."

/-- `find_properties_direct`, with the external service stubbed by `env`.
Returns the result dictionary together with the number of `firecrawl.extract`
calls issued.  The instruction prompts sent with the calls are inputs to the
stubbed external service and do not influence the modelled outcome. -/
def findProperties (env : ExtractEnv) (city state : String) (criteria : Criteria)
    (selected : List String) : FindResult × Nat :=
  let urls := urlsToSearch city state selected
  if urls.isEmpty then
    (.error "No websites selected", 0)
  else
    match env.first with
    | .raised e =>
        (.error ("Firecrawl extraction failed: " ++ e ++
          "\n\nPlease check your API keys and try again."), 1)
    | .returned r =>
      let pt := normalizeFirst r
      let pt2 := if fallbackTriggered pt.1 pt.2 then applyFallback env pt else pt
      let calls := if fallbackTriggered pt.1 pt.2 then 2 else 1
      if pt2.1.isEmpty then
        (.error (bigErrorMsg pt2.2 pt2.1.length urls.length selected), calls)
      else
        (.success pt2.1 pt2.1.length selected, calls)

/-! ## Pipeline Orchestrator (src/agent/analysis.py)

`run_sequential_analysis` sequences extraction → market narrative →
valuation narrative → synthesis.  The two LLM agents are stubbed by the raw
text they return (`RunOutput.content`); the Streamlit `update_callback` is
modelled as an explicit trace of `(fractional_progress, status, detail)`
events, together with counters of how many times each narrative agent was
invoked.
-/

/-- One per-property summary dict built for the valuation prompt
(lines 84-106): 1-based `number` plus the defaulted field reads.  The
dict-vs-attribute dual access collapses to one defaulted lookup. -/
structure ValSummary where
  number : Nat
  address : String
  price : String
  property_type : String
  bedrooms : String
  bathrooms : String
  square_feet : String
deriving DecidableEq

/-- The summary built for one property. -/
def mkValSummary (i : Nat) (p : PropRecord) : ValSummary :=
  ⟨i, p.address.getD "Address not available", p.price.getD "Price not available",
   p.property_type.getD "Type not available", p.bedrooms.getD "Not specified",
   p.bathrooms.getD "Not specified", p.square_feet.getD "Not specified"⟩

/-- `for i, prop in enumerate(properties, 1): properties_for_valuation.append(...)`. -/
def buildValuationSummaries (i : Nat) : List PropRecord → List ValSummary
  | [] => []
  | p :: ps => mkValSummary i p :: buildValuationSummaries (i + 1) ps

/-- Lower-case hexadecimal digit (as emitted by `json.dumps`). -/
def jsonHexDigit (n : Nat) : Char :=
  if n < 10 then Char.ofNat (48 + n) else Char.ofNat (87 + n)

/-- Four-digit hexadecimal rendering for `\uXXXX` escapes. -/
def jsonHex4 (n : Nat) : String :=
  ⟨[jsonHexDigit (n / 4096 % 16), jsonHexDigit (n / 256 % 16),
    jsonHexDigit (n / 16 % 16), jsonHexDigit (n % 16)]⟩

/-- `json.dumps` escaping of one character (default `ensure_ascii=True`). -/
def jsonEscapeChar (c : Char) : String :=
  if c = '"' then "\\\""
  else if c = '\\' then "\\\\"
  else if c = '\n' then "\\n"
  else if c = '\t' then "\\t"
  else if c = '\r' then "\\r"
  else if c.toNat = 8 then "\\b"
  else if c.toNat = 12 then "\\f"
  else if c.toNat < 32 then "\\u" ++ jsonHex4 c.toNat
  else if c.toNat < 127 then String.singleton c
  else if c.toNat ≤ 65535 then "\\u" ++ jsonHex4 c.toNat
  else
    let v := c.toNat - 65536
    "\\u" ++ jsonHex4 (55296 + v / 1024) ++ "\\u" ++ jsonHex4 (56320 + v % 1024)

/-- A JSON string literal as emitted by `json.dumps`. -/
def jsonStr (s : String) : String :=
  "\"" ++ String.join (s.data.map jsonEscapeChar) ++ "\""

/-- The key/value lines of one summary dict under `json.dumps(..., indent=2)`
(keys in insertion order). -/
def summaryLines (s : ValSummary) : String :=
  "    \"number\": " ++ natStr s.number ++ ",\n" ++
  "    \"address\": " ++ jsonStr s.address ++ ",\n" ++
  "    \"price\": " ++ jsonStr s.price ++ ",\n" ++
  "    \"property_type\": " ++ jsonStr s.property_type ++ ",\n" ++
  "    \"bedrooms\": " ++ jsonStr s.bedrooms ++ ",\n" ++
  "    \"bathrooms\": " ++ jsonStr s.bathrooms ++ ",\n" ++
  "    \"square_feet\": " ++ jsonStr s.square_feet

/-- `json.dumps(properties_for_valuation, indent=2)`. -/
def summariesJson (l : List ValSummary) : String :=
  if l.isEmpty then "[]"
  else
    "[\n" ++
      String.intercalate ",\n"
        (l.map (fun s => "  \x7b\n" ++ summaryLines s ++ "\n  \x7d")) ++
      "\n]"

/-- A JSON list of strings under `indent=2` at object-field depth. -/
def jsonStrList (l : List String) : String :=
  if l.isEmpty then "[]"
  else
    "[\n" ++ String.intercalate ",\n" (l.map (fun x => "      " ++ jsonStr x)) ++
      "\n    ]"

/-- The present key/value lines of one raw property dict; the service's key
order is not observable in the repository, so the schema's declaration order
(src/schemas/models.py) stands in for it. -/
def propJsonFields (p : PropRecord) : List String :=
  (match p.address with
   | some v => ["    \"address\": " ++ jsonStr v]
   | none => []) ++
  (match p.price with
   | some v => ["    \"price\": " ++ jsonStr v]
   | none => []) ++
  (match p.bedrooms with
   | some v => ["    \"bedrooms\": " ++ jsonStr v]
   | none => []) ++
  (match p.bathrooms with
   | some v => ["    \"bathrooms\": " ++ jsonStr v]
   | none => []) ++
  (match p.square_feet with
   | some v => ["    \"square_feet\": " ++ jsonStr v]
   | none => []) ++
  (match p.property_type with
   | some v => ["    \"property_type\": " ++ jsonStr v]
   | none => []) ++
  (match p.description with
   | some v => ["    \"description\": " ++ jsonStr v]
   | none => []) ++
  (match p.features with
   | some v => ["    \"features\": " ++ jsonStrList v]
   | none => []) ++
  (match p.images with
   | some v => ["    \"images\": " ++ jsonStrList v]
   | none => []) ++
  (match p.agent_contact with
   | some v => ["    \"agent_contact\": " ++ jsonStr v]
   | none => []) ++
  (match p.listing_url with
   | some v => ["    \"listing_url\": " ++ jsonStr v]
   | none => [])

/-- One raw property dict under `json.dumps(..., indent=2)`. -/
def propJson (p : PropRecord) : String :=
  let fs := propJsonFields p
  if fs.isEmpty then "  \x7b\x7d"
  else "  \x7b\n" ++ String.intercalate ",\n" fs ++ "\n  \x7d"

/-- `json.dumps(properties, indent=2)`. -/
def propsJson (props : List PropRecord) : String :=
  if props.isEmpty then "[]"
  else "[\n" ++ String.intercalate ",\n" (props.map propJson) ++ "\n]"

/-- `market_analysis_prompt` (lines 61-73), verbatim. -/
def marketAnalysisPrompt (criteria : Criteria) (nProps : Nat) (city state : String) :
    String :=
  "\n    Provide CONCISE market analysis for these properties:\n    \n" ++
  "    PROPERTIES: " ++ natStr nProps ++ " properties in " ++ city ++ ", " ++
    state ++ "\n" ++
  "    BUDGET: " ++ criteria.budget_range.getD "Any" ++ "\n    \n" ++
  "    Give BRIEF insights on:\n" ++
  "    • Market condition (buyer" ++ sq ++ "s/seller" ++ sq ++ "s market)\n" ++
  "    • Key neighborhoods where properties are located\n" ++
  "    • Investment outlook (2-3 bullet points max)\n    \n" ++
  "    Keep each section under 100 words. Use bullet points.\n    "

/-- `valuation_prompt` (lines 108-128), verbatim. -/
def valuationPrompt (criteria : Criteria) (summaries : List ValSummary)
    (nProps : Nat) : String :=
  "\n    Provide CONCISE property assessments for each property. " ++
    "Use the EXACT format shown below:\n    \n" ++
  "    USER BUDGET: " ++ criteria.budget_range.getD "Any" ++ "\n    \n" ++
  "    PROPERTIES TO EVALUATE:\n    " ++ summariesJson summaries ++ "\n    \n" ++
  "    For EACH property, provide assessment in this EXACT format:\n    \n" ++
  "    **Property [NUMBER]: [ADDRESS]**\n" ++
  "    • Value: [Fair price/Over priced/Under priced] - [brief reason]\n" ++
  "    • Investment Potential: [High/Medium/Low] - [brief reason]\n" ++
  "    • Recommendation: [One actionable insight]\n    \n" ++
  "    REQUIREMENTS:\n" ++
  "    - Start each assessment with \"**Property [NUMBER]:**\"\n" ++
  "    - Keep each property assessment under 50 words\n" ++
  "    - Analyze ALL " ++ natStr nProps ++ " properties individually\n" ++
  "    - Use bullet points as shown\n    "

/-- The Markdown block appended to `properties_display` for property `i`
(lines 164-178), with the defaulted field reads of lines 142-162. -/
def displayBlock (i : Nat) (p : PropRecord) : String :=
  "\n### Property " ++ natStr i ++ ": " ++ p.address.getD "Address not available" ++
  "\n\n**Price:** " ++ p.price.getD "Price not available" ++
  "  \n**Type:** " ++ p.property_type.getD "Type not available" ++
  "  \n**Bedrooms:** " ++ p.bedrooms.getD "Not specified" ++
  " | **Bathrooms:** " ++ p.bathrooms.getD "Not specified" ++
  "  \n**Square Feet:** " ++ p.square_feet.getD "Not specified" ++
  "  \n**Agent Contact:** " ++ p.agent_contact.getD "Contact not available" ++
  "  \n\n**Description:** " ++ p.description.getD "No description available" ++
  "  \n\n**Listing URL:** [View Property](" ++ p.listing_url.getD "#" ++
  ")  \n\n---\n"

/-- The `properties_display` accumulation loop (`for i, prop in
enumerate(properties, 1)`). -/
def propertiesDisplay (i : Nat) : List PropRecord → String
  | [] => ""
  | p :: ps => displayBlock i p ++ propertiesDisplay (i + 1) ps

/-- Membership in the character class of the URL regular expression
`http[s]?://(?:[a-zA-Z]|[0-9]|[$-_@.&+]|[!*\\(\\),]|(?:%[0-9a-fA-F][0-9a-fA-F]))+`:
`$-_` is a character range (which subsumes `@.&+` and `%`), so the class is
ASCII letters, digits, codes 36-95, and `! * \ ( ) ,`. -/
def urlChar (c : Char) : Bool :=
  c.isAlpha || c.isDigit || (36 ≤ c.toNat && c.toNat ≤ 95) ||
  c = '!' || c = '*' || c = '\\' || c = '(' || c = ')' || c = ','

/-- Try to match the URL regular expression at the head of `cs`; on success
return the matched characters and the remainder. -/
def matchUrl (cs : List Char) : Option (List Char × List Char) :=
  if "http".data.isPrefixOf cs then
    let rest4 := cs.drop 4
    let sPart : List Char := if rest4.head? = some 's' then ['s'] else []
    let rest5 := rest4.drop sPart.length
    if "://".data.isPrefixOf rest5 then
      let body := rest5.drop 3
      let run := body.takeWhile urlChar
      if run.isEmpty then none
      else some ("http".data ++ sPart ++ "://".data ++ run, body.drop run.length)
    else none
  else none

/-- Fueled worker for `re.findall` of the URL pattern: scan left to right,
non-overlapping, resuming after each match. -/
def findUrlsGo : Nat → List Char → List String
  | _, [] => []
  | 0, _ => []
  | fuel + 1, c :: rest =>
    match matchUrl (c :: rest) with
    | some (u, rem) => (⟨u⟩ : String) :: findUrlsGo fuel rem
    | none => findUrlsGo fuel rest

/-- `re.findall(r'http[s]?://...', text)`. -/
def pyFindUrls (s : String) : List String := findUrlsGo s.data.length s.data

/-- De-duplication of the discovered URLs.  The code iterates `set(urls)`,
whose order is a CPython implementation detail; first-occurrence order stands
in for it here. -/
def dedupGo (seen : List String) : List String → List String
  | [] => []
  | x :: xs => if x ∈ seen then dedupGo seen xs else x :: dedupGo (x :: seen) xs

/-- `for i, url in enumerate(set(urls), 1): ... f"{i}. {url}\n"`. -/
def numberLines (i : Nat) : List String → String
  | [] => ""
  | u :: us => natStr i ++ ". " ++ u ++ "\n" ++ numberLines (i + 1) us

/-- The `final_synthesis` f-string (lines 180-202) followed by the link
appendix (lines 204-211). -/
def finalSynthesis (props : List PropRecord) (marketAnalysis propertyValuations : String) :
    String :=
  let base :=
    "\n# 🏠 Property Listings Found\n\n**Total Properties:** " ++
    natStr props.length ++ " properties matching your criteria\n\n" ++
    propertiesDisplay 1 props ++
    "\n\n---\n\n# 📊 Market Analysis & Investment Insights\n\n        " ++
    marketAnalysis ++
    "\n\n---\n    \n# 💰 Property Valuations & Recommendations\n    \n        " ++
    propertyValuations ++
    "\n\n---\n\n# 🔗 All Property Links\n    "
  let allText := propsJson props ++ " " ++ marketAnalysis ++ " " ++ propertyValuations
  let urls := pyFindUrls allText
  if urls.isEmpty then base
  else base ++ "\n### Available Property Links:\n" ++ numberLines 1 (dedupGo [] urls)

/-- Trace of observable side effects of one orchestrator run: the
`update_callback(progress, status, detail)` invocations in order, and how
often the market-analysis and valuation agents were invoked. -/
structure RunTrace where
  callbacks : List (ℚ × String × String)
  marketCalls : Nat
  valuationCalls : Nat
deriving DecidableEq

/-- The structured dictionary returned on a complete run (lines 216-222). -/
structure PipelineResult where
  properties : List PropRecord
  market_analysis : String
  property_valuations : String
  markdown_synthesis : String
  total_properties : Nat
deriving DecidableEq

/-- `run_sequential_analysis` returns either a plain string (soft failure) or
the structured result dictionary. -/
inductive AnalysisOutcome where
  | str (s : String)
  | res (r : PipelineResult)
deriving DecidableEq

/-- The first `update_callback` invocation (line 34), issued before the
extraction result is inspected. -/
def cbSearch : ℚ × String × String :=
  (0.2, "Searching properties...", "🔍 Property Search Agent: Finding properties...")

/-- `run_sequential_analysis` (src/agent/analysis.py) given the extraction
result dictionary `pd` and the stubbed narrative texts the two LLM agents
return.  The callback's return value is never consumed by the code, so the
trace records only the arguments passed to it. -/
def runSequentialAnalysis (city state : String) (criteria : Criteria)
    (pd : FindResult) (marketResponse valuationResponse : String) :
    AnalysisOutcome × RunTrace :=
  match pd with
  | .error e =>
      (.str ("Error in property search: " ++ e), ⟨[cbSearch], 0, 0⟩)
  | .success props _ _ =>
    if props.isEmpty then
      (.str "No properties found matching your criteria.", ⟨[cbSearch], 0, 0⟩)
    else
      let marketAnalysis := marketResponse
      let propertyValuations := valuationResponse
      (.res ⟨props, marketAnalysis, propertyValuations,
             finalSynthesis props marketAnalysis propertyValuations, props.length⟩,
       ⟨[cbSearch,
         (0.4, "Properties found", "✅ Found " ++ natStr props.length ++ " properties"),
         (0.5, "Analyzing market...",
          "📊 Market Analysis Agent: Analyzing market trends..."),
         (0.7, "Market analysis complete", "✅ Market analysis completed"),
         (0.8, "Evaluating properties...",
          "💰 Property Valuation Agent: Evaluating properties..."),
         (0.9, "Valuation complete", "✅ Property valuations completed"),
         (0.95, "Synthesizing results...", "🤖 Synthesizing final recommendations..."),
         (1.0, "Analysis complete", "🎉 Complete analysis ready!")],
        1, 1⟩)

/-- The orchestrator driven by the real Extraction Client: lines 36-47 feed
`find_properties_direct`'s result straight into the checks of lines 49-54. -/
def runWithClient (env : ExtractEnv) (city state : String) (criteria : Criteria)
    (selected : List String) (marketResponse valuationResponse : String) :
    AnalysisOutcome × RunTrace :=
  runSequentialAnalysis city state criteria
    (findProperties env city state criteria selected).1 marketResponse valuationResponse

/-! ## Valuation Section Extractor (src/utils/helpers.py)

`extract_property_valuation(property_valuations, property_number,
property_address)`: three-tier substring recovery with a synthesized
placeholder as the designed bottom.  Python's `None` return (for falsy input
text) is `Option.none`.
-/

/-- The fixed placeholder returned when no tier matches (line 46). -/
def placeholderValuation (n : Nat) : String :=
  "**Property " ++ natStr n ++ " Analysis**\n" ++
  "• Analysis: Individual assessment not available\n" ++
  "• Recommendation: Review general market analysis in the Market Analysis tab"

/-- `extract_property_valuation`, verbatim: split on `'**Property'` and take
the fragment whose stripped form starts with `"<n>:"` (re-attaching the
marker and applying the two `replace` calls); otherwise the first
double-newline paragraph mentioning `Property <n>` or `#<n>`; otherwise the
first paragraph containing one of the first three >2-character words of the
lower-cased address; otherwise the placeholder. -/
def extractPropertyValuation (propertyValuations : String) (n : Nat)
    (propertyAddress : String) : Option String :=
  if propertyValuations = "" then none
  else
    let sections := pySplitOn "**Property" propertyValuations
    match sections.find? (fun sec => pyStartsWith (pyStrip sec) (natStr n ++ ":")) with
    | some sec =>
        some (pyReplace "***" "**"
          (pyReplace "**" "**" (pyStrip ("**Property" ++ sec))))
    | none =>
      let allSections := pySplitOn "\n\n" propertyValuations
      match allSections.find? (fun sec =>
          pyContains sec ("Property " ++ natStr n) ||
          pyContains sec ("#" ++ natStr n)) with
      | some sec => some sec
      | none =>
        let words := ((pySplitWs (pyLower propertyAddress)).take 3).filter
          (fun w => w.length > 2)
        match allSections.find? (fun sec =>
            words.any (fun w => pyContains (pyLower sec) w)) with
        | some sec => some sec
        | none => some (placeholderValuation n)

/-! ## Presentation-layer average price (src/ui/display.py, lines 25-36)

`display_properties_professionally` keeps the prices that are truthy, differ
from `'Price not available'`, and contain at least one digit; it shows the
floor of their mean with thousands separators, or `N/A` when none were kept.
-/

/-- The price-collection loop (lines 26-34): the `int()` of the concatenated
digits of each kept entry. -/
def collectPrices : List PropRecord → List Nat
  | [] => []
  | p :: ps =>
    let priceStr := p.price.getD ""
    if priceStr ≠ "" ∧ priceStr ≠ "Price not available" then
      let d := pyDigits priceStr
      if d ≠ "" then digitsToNat d :: collectPrices ps else collectPrices ps
    else collectPrices ps

/-- Grouping of reversed decimal digits in threes (worker for the `{:,}`
format specification). -/
def commaGroupRev : Nat → List Char → List Char
  | _, [] => []
  | 0, ds => ds
  | fuel + 1, c :: ds =>
    let chunk := (c :: ds).take 3
    let rest := ds.drop 2
    if rest.isEmpty then chunk else chunk ++ ',' :: commaGroupRev fuel rest

/-- Python `f"{n:,}"` for a natural number. -/
def commaFormat (n : Nat) : String :=
  ⟨(commaGroupRev (natStr n).data.length (natStr n).data.reverse).reverse⟩

/-- `avg_price = f"${sum(prices) // len(prices):,}" if prices else "N/A"`. -/
def averagePriceDisplay (props : List PropRecord) : String :=
  let prices := collectPrices props
  if prices.isEmpty then "N/A"
  else "$" ++ commaFormat (prices.sum / prices.length)

/-! ## Concrete fixtures used by witnesses and counterexamples -/

/-- The valuation text of the specification's `extract_section` test vector. -/
def conformText : String :=
  "**Property 1: 123 Main St**\n• Value: Fair\n\n**Property 2: 456 Oak Ave**\n• Value: High"

/-- A sample extracted property record. -/
def sampleProp : PropRecord :=
  { address := some "123 Main St", price := some "$500,000" }

/-- Service stub: first call succeeds with one property. -/
def envOneProp : ExtractEnv :=
  ⟨.returned (.dict true ⟨[sampleProp], 1⟩), .returned .other⟩

/-- Service stub: first call succeeds with zero properties and
`total_count = 0`. -/
def envEmpty0 : ExtractEnv :=
  ⟨.returned (.dict true ⟨[], 0⟩), .returned .other⟩

/-- Service stub: first call succeeds with zero properties but
`total_count = 5`; the fallback call raises. -/
def envEmpty5 : ExtractEnv :=
  ⟨.returned (.dict true ⟨[], 5⟩), .raised "boom"⟩

/-- The distinguishing character (position 12, just after `https://www.`) of
each site's URL template. -/
def siteTag : Site → Char
  | .zillow => 'z'
  | .realtor => 'r'
  | .trulia => 't'
  | .homes => 'h'

/-! ## Helper lemmas -/

lemma data_append (a b : String) : (a ++ b).data = a.data ++ b.data := rfl

lemma str_eq_empty_iff (s : String) : s = "" ↔ s.data = [] := by
  constructor
  · intro h; rw [h]
  · intro h; cases s with
    | mk d => cases h; rfl

lemma strMk_ne_empty {l : List Char} (h : l ≠ []) : (⟨l⟩ : String) ≠ "" := by
  intro hc
  exact h ((str_eq_empty_iff _).mp hc)

lemma lit_append_ne_empty {a : String} (ha : a.data ≠ []) (b : String) :
    a ++ b ≠ "" := by
  intro hc
  rw [str_eq_empty_iff, data_append] at hc
  exact ha (List.append_eq_nil.mp hc).1

/-- A non-whitespace member of a list survives `dropWhile isWhitespace`. -/
lemma mem_dropWhile_of_not {p : Char → Bool} {c : Char} (hc : p c = false) :
    ∀ {l : List Char}, c ∈ l → c ∈ l.dropWhile p := by
  intro l
  induction l with
  | nil => intro h; cases h
  | cons x xs ih =>
    intro h
    rw [List.dropWhile_cons]
    by_cases hx : p x = true
    · rw [if_pos hx]
      rcases List.mem_cons.mp h with h1 | h2
      · subst h1; rw [hc] at hx; cases hx
      · exact ih h2
    · rw [if_neg hx]; exact h

/-- `pyStrip s` is non-empty when `s` contains a non-whitespace character. -/
lemma pyStrip_ne_empty {s : String} {c : Char} (hc : c ∈ s.data)
    (hw : c.isWhitespace = false) : pyStrip s ≠ "" := by
  apply strMk_ne_empty
  intro hnil
  rw [List.reverse_eq_nil_iff, List.dropWhile_eq_nil_iff] at hnil
  have h1 : c ∈ s.data.dropWhile Char.isWhitespace := mem_dropWhile_of_not hw hc
  have h2 : c ∈ (s.data.dropWhile Char.isWhitespace).reverse := List.mem_reverse.mpr h1
  have := hnil c h2
  rw [hw] at this
  cases this

/-- `pyReplace` with a non-empty replacement maps non-empty to non-empty. -/
lemma pyReplace_ne_empty {old new s : String} (hs : s ≠ "") (hn : new ≠ "") :
    pyReplace old new s ≠ "" := by
  apply strMk_ne_empty
  obtain ⟨c, rest, hdata⟩ : ∃ c rest, s.data = c :: rest := by
    rcases hd : s.data with _ | ⟨c, rest⟩
    · exact absurd ((str_eq_empty_iff s).mpr hd) hs
    · exact ⟨c, rest, rfl⟩
  rw [hdata]
  show replaceGo old.data new.data (c :: rest).length (c :: rest) ≠ []
  rw [List.length_cons, replaceGo]
  split
  · intro hc
    rcases List.append_eq_nil.mp hc with ⟨h1, -⟩
    exact hn ((str_eq_empty_iff new).mpr h1)
  · simp

/-- A string containing a non-empty needle is non-empty. -/
lemma pyContains_ne_empty {h n : String} (hc : pyContains h n = true)
    (hn : n ≠ "") : h ≠ "" := by
  intro he
  rw [str_eq_empty_iff] at he
  obtain ⟨c, rest, hd⟩ : ∃ c rest, n.data = c :: rest := by
    rcases hd : n.data with _ | ⟨c, rest⟩
    · exact absurd ((str_eq_empty_iff n).mpr hd) hn
    · exact ⟨c, rest, rfl⟩
  rw [pyContains, he, containsGo, hd] at hc
  simp [List.isPrefixOf] at hc

lemma pyLower_eq_empty_iff (s : String) : pyLower s = "" ↔ s = "" := by
  rw [str_eq_empty_iff, str_eq_empty_iff]
  show s.data.map Char.toLower = [] ↔ s.data = []
  simp

/-- Character 12 of every site URL (just after `https://www.`) identifies the
site, whatever the city and state. -/
lemma siteUrl_data12 (s : Site) (c st : String) :
    (siteUrl s c st).data[12]? = some (siteTag s) := by
  cases s <;>
    · simp only [siteUrl, data_append, List.append_assoc]
      rw [List.getElem?_append_left (by decide)]
      decide

/-- Distinct sites always get distinct URLs. -/
lemma siteUrl_inj (c st : String) : Function.Injective (fun s => siteUrl s c st) := by
  intro s1 s2 h
  have h12 := congrArg (fun u => u.data[12]?) h
  simp only [siteUrl_data12] at h12
  have htag : siteTag s1 = siteTag s2 := Option.some.inj h12
  cases s1 <;> cases s2 <;> first
    | rfl
    | exact absurd htag (by decide)

lemma mem_knownSites (s : Site) : s ∈ knownSites := by
  cases s <;> decide

lemma append_left_ne_empty (a b : String) (h : a ≠ "") : a ++ b ≠ "" := by
  intro hc
  rw [str_eq_empty_iff, data_append, List.append_eq_nil] at hc
  exact h ((str_eq_empty_iff a).mpr hc.1)

lemma placeholder_ne (n : Nat) : placeholderValuation n ≠ "" := by
  apply append_left_ne_empty
  apply append_left_ne_empty
  apply append_left_ne_empty
  apply append_left_ne_empty
  decide

lemma errStr_ne (e : String) :
    "Error in property search: " ++ e ≠ "No properties found matching your criteria." := by
  intro hc
  have h0 := congrArg (fun s => s.data[0]?) hc
  simp only [data_append] at h0
  rw [List.getElem?_append_left (by decide)] at h0
  exact absurd h0 (by decide)

lemma fallbackTriggered_iff (a : List PropRecord) (b : Int) :
    fallbackTriggered a b = true ↔ a = [] ∧ b > 0 := by
  simp [fallbackTriggered, List.length_eq_zero]

lemma urlsToSearch_nil (city state : String) : urlsToSearch city state [] = [] := rfl

/-- A success dictionary from `find_properties_direct` always carries a
non-empty property list, with `total_count` equal to its length and
`source_websites` equal to the selection. -/
lemma findProperties_success_inv {env : ExtractEnv} {city state : String}
    {criteria : Criteria} {selected : List String} {p : List PropRecord}
    {t : Nat} {sw : List String}
    (h : (findProperties env city state criteria selected).1 = .success p t sw) :
    p ≠ [] ∧ t = p.length ∧ sw = selected := by
  rw [findProperties] at h
  by_cases hu : (urlsToSearch city state selected).isEmpty = true
  · rw [if_pos hu] at h; cases h
  · rw [if_neg hu] at h
    cases hf : env.first with
    | raised e => rw [hf] at h; cases h
    | returned r =>
      rw [hf] at h
      simp only at h
      by_cases he :
          ((if fallbackTriggered (normalizeFirst r).1 (normalizeFirst r).2 then
              applyFallback env (normalizeFirst r)
            else normalizeFirst r) : List PropRecord × Int).1.isEmpty = true
      · rw [if_pos he] at h; cases h
      · rw [if_neg he] at h
        cases h
        refine ⟨?_, rfl, rfl⟩
        intro hnil
        apply he
        rw [hnil]
        rfl

/-!
## Claim theorems
-/

/-- **C4.** `extract_property_valuation`'s first tier splits the valuation
text on `'**Property'`, selects the fragment whose stripped form starts with
`"<n>:"`, re-attaches the marker, and returns the stripped fragment: on the
two-property text of the specification, property 1 with address
`123 Main St` yields the fragment starting `**Property 1:`, and property 3
with address `999 Unknown Rd` (no header, no mention, no address-word match)
yields the synthesized placeholder containing
`Individual assessment not available`. -/
theorem c4_extract_section_tiers :
    extractPropertyValuation conformText 1 "123 Main St" =
      some "**Property 1: 123 Main St**\n• Value: Fair" ∧
    pyStartsWith "**Property 1: 123 Main St**\n• Value: Fair" "**Property 1:" = true ∧
    extractPropertyValuation conformText 3 "999 Unknown Rd" =
      some (placeholderValuation 3) ∧
    pyContains (placeholderValuation 3) "Individual assessment not available" = true := by
  decide

/-- **C8.** For every well-formed input (non-empty valuation text, property
number, address), `extract_property_valuation` returns some non-empty string:
each of the three matching tiers returns a non-empty fragment, and when none
matches the fixed non-empty placeholder is returned — the designed bottom of
the fallback chain, not an error. -/
theorem c8_extractor_never_empty (text : String) (n : Nat) (addr : String)
    (h : text ≠ "") :
    ∃ s, extractPropertyValuation text n addr = some s ∧ s ≠ "" := by
  rw [extractPropertyValuation, if_neg h]
  cases h1 : (pySplitOn "**Property" text).find?
      (fun sec => pyStartsWith (pyStrip sec) (natStr n ++ ":")) with
  | some sec =>
    simp only [h1]
    refine ⟨_, rfl, ?_⟩
    apply pyReplace_ne_empty ?_ (by decide)
    apply pyReplace_ne_empty ?_ (by decide)
    apply pyStrip_ne_empty (c := '*')
    · rw [data_append]
      exact List.mem_append_left _ (by decide)
    · decide
  | none =>
    simp only [h1]
    cases h2 : (pySplitOn "\n\n" text).find? (fun sec =>
        pyContains sec ("Property " ++ natStr n) ||
        pyContains sec ("#" ++ natStr n)) with
    | some sec =>
      simp only [h2]
      refine ⟨sec, rfl, ?_⟩
      have hor := List.find?_some h2
      rw [Bool.or_eq_true] at hor
      rcases hor with hc | hc
      · exact pyContains_ne_empty hc (append_left_ne_empty _ _ (by decide))
      · exact pyContains_ne_empty hc (append_left_ne_empty _ _ (by decide))
    | none =>
      simp only [h2]
      cases h3 : (pySplitOn "\n\n" text).find? (fun sec =>
          (((pySplitWs (pyLower addr)).take 3).filter
            (fun w => decide (w.length > 2))).any
            (fun w => pyContains (pyLower sec) w)) with
      | some sec =>
        simp only [h3]
        refine ⟨sec, rfl, ?_⟩
        have hraw := List.find?_some h3
        have hany : (((pySplitWs (pyLower addr)).take 3).filter
            (fun w => decide (w.length > 2))).any
            (fun w => pyContains (pyLower sec) w) = true := hraw
        obtain ⟨w, hw, hcon⟩ := List.any_eq_true.mp hany
        have hwlen : w.length > 2 := of_decide_eq_true ((List.mem_filter.mp hw).2)
        have hwne : w ≠ "" := by
          intro hc
          rw [hc] at hwlen
          exact absurd hwlen (by decide)
        have hlow : pyLower sec ≠ "" := pyContains_ne_empty hcon hwne
        intro hc
        exact hlow ((pyLower_eq_empty_iff sec).mpr hc)
      | none =>
        simp only [h3]
        exact ⟨_, rfl, placeholder_ne n⟩

/-- Witness for C8 at `text = "xyz"`, `n = 1`, `addr = ""`. -/
theorem c8_extractor_never_empty_witness :
    ∃ s, extractPropertyValuation "xyz" 1 "" = some s ∧ s ≠ "" :=
  c8_extractor_never_empty "xyz" 1 "" (by decide)

/-- **C9.** The presentation layer's average-price computation drops entries
that are empty, equal to the sentinel `Price not available`, or contain no
digit, and renders the integer floor of the mean of the kept
digit-concatenated values with thousands separators: on
`["$500,000", "$750,000", "Price not available"]` it shows `$625,000`. -/
theorem c9_average_price :
    (∀ (p : PropRecord) (props : List PropRecord),
      (p.price.getD "" = "" ∨ p.price.getD "" = "Price not available" ∨
        pyDigits (p.price.getD "") = "") →
      collectPrices (p :: props) = collectPrices props) ∧
    averagePriceDisplay
      [{ price := some "$500,000" }, { price := some "$750,000" },
       { price := some "Price not available" }] = "$625,000" := by
  constructor
  · intro p props h
    rcases h with h | h | h
    · simp [collectPrices, h]
    · simp [collectPrices, h]
    · by_cases hc : p.price.getD "" ≠ "" ∧ p.price.getD "" ≠ "Price not available"
      · simp [collectPrices, hc, h]
      · simp [collectPrices, hc]
  · decide

/-- Witness for C9's first clause at a sentinel-priced record. -/
theorem c9_average_price_witness :
    collectPrices [{ price := some "Price not available" }] = collectPrices [] :=
  c9_average_price.1 { price := some "Price not available" } []
    (Or.inr (Or.inl (by decide)))

/-- **C6.** For every non-empty `selected_sites` list that is a (duplicate-free)
subset of the known site enumeration Zillow / Realtor.com / Trulia / Homes.com,
`find_properties_direct` builds exactly one candidate search URL per selected
site — `urls_to_search` has the length of the selection, contains no duplicate
URLs, and contains a site's templated URL exactly when that site was
selected. -/
theorem c6_one_url_per_selected_site (city state : String) (selected : List String)
    (hne : selected ≠ []) (hnd : selected.Nodup)
    (hsub : ∀ x ∈ selected, x ∈ knownSites.map siteName) :
    (urlsToSearch city state selected).length = selected.length ∧
    (urlsToSearch city state selected).Nodup ∧
    ∀ s : Site, siteUrl s city state ∈ urlsToSearch city state selected ↔
      siteName s ∈ selected := by
  refine ⟨?_, ?_, ?_⟩
  · have hperm : selected.Perm
        ((knownSites.map siteName).filter (fun x => decide (x ∈ selected))) := by
      apply List.perm_of_nodup_nodup_toFinset_eq hnd
        (List.Nodup.filter _ (by decide))
      ext a
      simp only [List.mem_toFinset, List.mem_filter, decide_eq_true_eq]
      exact ⟨fun ha => ⟨hsub a ha, ha⟩, fun ha => ha.2⟩
    have hfil : (knownSites.map siteName).filter (fun x => decide (x ∈ selected)) =
        (knownSites.filter (fun s => decide (siteName s ∈ selected))).map siteName :=
      List.filter_map siteName knownSites
    rw [urlsToSearch, List.length_map, hperm.length_eq, hfil, List.length_map]
  · exact List.Nodup.map (siteUrl_inj city state)
      (List.Nodup.filter _ (by decide))
  · intro s
    rw [urlsToSearch]
    constructor
    · intro hmem
      obtain ⟨s', hs', heq⟩ := List.mem_map.mp hmem
      have : s' = s := siteUrl_inj city state heq
      subst this
      exact of_decide_eq_true (List.mem_filter.mp hs').2
    · intro hmem
      exact List.mem_map.mpr
        ⟨s, List.mem_filter.mpr ⟨mem_knownSites s, decide_eq_true hmem⟩, rfl⟩

/-- Witness for C6 at `city = "New York"`, `state = "ny"`,
`selected = ["Trulia", "Zillow"]`. -/
theorem c6_one_url_per_selected_site_witness :
    (urlsToSearch "New York" "ny" ["Trulia", "Zillow"]).length = 2 ∧
    (urlsToSearch "New York" "ny" ["Trulia", "Zillow"]).Nodup ∧
    siteUrl .zillow "New York" "ny" ∈ urlsToSearch "New York" "ny" ["Trulia", "Zillow"] ∧
    siteUrl .realtor "New York" "ny" ∉ urlsToSearch "New York" "ny" ["Trulia", "Zillow"] := by
  have h := c6_one_url_per_selected_site "New York" "ny" ["Trulia", "Zillow"]
    (by decide) (by decide) (by decide)
  exact ⟨h.1, h.2.1, (h.2.2 .zillow).mpr (by decide),
    fun hmem => absurd ((h.2.2 .realtor).mp hmem) (by decide)⟩

/-- **C1 counterexample.** With one site selected (so a non-empty URL list)
and a first extraction call that returns successfully with zero properties
and `total_count = 0` (no exception anywhere), `find_properties_direct`
still returns an `{"error": ...}` dictionary — refuting "the result is an
error dictionary exactly when the filtered URL list is empty or the
underlying extraction call raised". -/
theorem c1_counterexample :
    urlsToSearch "Austin" "TX" ["Zillow"] ≠ [] ∧
    envEmpty0.first = .returned (.dict true ⟨[], 0⟩) ∧
    (findProperties envEmpty0 "Austin" "TX" {} ["Zillow"]).1.isError = true := by
  decide

/-- **C1 (amended).** `find_properties_direct` returns an error dictionary
exactly when the filtered URL list is empty, the first extraction call
raised, or the post-fallback property list is empty; in every other case the
result is the success dictionary whose `total_count` is the length of the
returned property list and whose `source_websites` is the caller's
selection.  When the selection is empty, zero extraction calls are issued. -/
theorem c1_error_result_contract (env : ExtractEnv) (city state : String)
    (criteria : Criteria) (selected : List String) :
    (((findProperties env city state criteria selected).1.isError = true) ↔
      (urlsToSearch city state selected = [] ∨ (∃ e, env.first = .raised e) ∨
        (postFallbackPT env).1 = [])) ∧
    ((findProperties env city state criteria selected).1.isError = false →
      (findProperties env city state criteria selected).1 =
        .success (postFallbackPT env).1 (postFallbackPT env).1.length selected) ∧
    (selected = [] → (findProperties env city state criteria selected).2 = 0) := by
  by_cases hu : (urlsToSearch city state selected).isEmpty = true
  · have hfp : findProperties env city state criteria selected =
        (.error "No websites selected", 0) := by
      rw [findProperties, if_pos hu]
    rw [hfp]
    refine ⟨⟨fun _ => Or.inl (List.isEmpty_iff.mp hu), fun _ => rfl⟩,
      fun hc => ?_, fun _ => rfl⟩
    simp [FindResult.isError] at hc
  · have hnotnil : urlsToSearch city state selected ≠ [] := by
      intro hc; rw [hc] at hu; exact hu rfl
    have hself : selected = [] → False := by
      intro hsel; subst hsel; exact hnotnil (urlsToSearch_nil _ _)
    cases hf : env.first with
    | raised e =>
      have hfp : findProperties env city state criteria selected =
          (.error ("Firecrawl extraction failed: " ++ e ++
            "\n\nPlease check your API keys and try again."), 1) := by
        rw [findProperties, if_neg hu, hf]
      rw [hfp]
      refine ⟨⟨fun _ => Or.inr (Or.inl ⟨e, rfl⟩), fun _ => rfl⟩,
        fun hc => ?_, fun hsel => (hself hsel).elim⟩
      simp [FindResult.isError] at hc
    | returned r =>
      have hpost : postFallbackPT env =
          (if fallbackTriggered (normalizeFirst r).1 (normalizeFirst r).2 then
            applyFallback env (normalizeFirst r)
          else normalizeFirst r) := by
        rw [postFallbackPT, hf]
      by_cases hemp : (postFallbackPT env).1.isEmpty = true
      · have hfp : findProperties env city state criteria selected =
            (.error (bigErrorMsg (postFallbackPT env).2 (postFallbackPT env).1.length
                (urlsToSearch city state selected).length selected),
             if fallbackTriggered (normalizeFirst r).1 (normalizeFirst r).2
               then 2 else 1) := by
          rw [findProperties, if_neg hu, hf]
          simp only [← hpost, hemp, if_true]
        rw [hfp]
        refine ⟨⟨fun _ => Or.inr (Or.inr (List.isEmpty_iff.mp hemp)), fun _ => rfl⟩,
          fun hc => ?_, fun hsel => (hself hsel).elim⟩
        simp [FindResult.isError] at hc
      · have hfp : findProperties env city state criteria selected =
            (.success (postFallbackPT env).1 (postFallbackPT env).1.length selected,
             if fallbackTriggered (normalizeFirst r).1 (normalizeFirst r).2
               then 2 else 1) := by
          rw [findProperties, if_neg hu, hf]
          simp only [← hpost, hemp, if_false]
          rfl
        rw [hfp]
        constructor
        · constructor
          · intro hc
            simp [FindResult.isError] at hc
          · rintro (hnil | ⟨e, he⟩ | hpost1)
            · exact absurd hnil hnotnil
            · cases he
            · exact absurd (by rw [hpost1]; rfl) hemp
        · exact ⟨fun _ => rfl, fun hsel => (hself hsel).elim⟩

/-- Witness for C1 (amended): a one-property success run and an
empty-selection run. -/
theorem c1_error_result_contract_witness :
    (findProperties envOneProp "Austin" "TX" {} ["Zillow"]).1 =
      .success (postFallbackPT envOneProp).1 (postFallbackPT envOneProp).1.length
        ["Zillow"] ∧
    (findProperties envOneProp "Austin" "TX" {} []).2 = 0 :=
  ⟨(c1_error_result_contract envOneProp "Austin" "TX" {} ["Zillow"]).2.1 (by decide),
   (c1_error_result_contract envOneProp "Austin" "TX" {} []).2.2 rfl⟩

/-- **C2.** The Extraction Client issues the schema-free fallback call if and
only if the normalized first response has an empty property list together
with `total_count > 0` (so two `extract` calls happen exactly then, and one
otherwise); every run issues at most two `extract` calls; and an exception
raised by the fallback call is swallowed — the run then ends with the error
dictionary built from the original empty result. -/
theorem c2_fallback_policy :
    (∀ (env : ExtractEnv) (city state : String) (criteria : Criteria)
        (selected : List String) (r : ExtractResponse),
      env.first = .returned r → urlsToSearch city state selected ≠ [] →
      (((findProperties env city state criteria selected).2 = 2) ↔
        ((normalizeFirst r).1 = [] ∧ (normalizeFirst r).2 > 0)) ∧
      (∀ e, env.fallback = .raised e →
        (normalizeFirst r).1 = [] → (normalizeFirst r).2 > 0 →
        (findProperties env city state criteria selected).1 =
          .error (bigErrorMsg (normalizeFirst r).2 0
            (urlsToSearch city state selected).length selected))) ∧
    (∀ (env : ExtractEnv) (city state : String) (criteria : Criteria)
        (selected : List String),
      (findProperties env city state criteria selected).2 ≤ 2) := by
  constructor
  · intro env city state criteria selected r hf hnotnil
    have hu : ¬(urlsToSearch city state selected).isEmpty = true := by
      simp [List.isEmpty_iff, hnotnil]
    constructor
    · by_cases htr : fallbackTriggered (normalizeFirst r).1 (normalizeFirst r).2 = true
      · have h2 : (findProperties env city state criteria selected).2 = 2 := by
          rw [findProperties, if_neg hu, hf]
          simp only [htr, if_true]
          split <;> rfl
        simp only [h2, true_iff]
        exact (fallbackTriggered_iff _ _).mp htr
      · have h1 : (findProperties env city state criteria selected).2 = 1 := by
          rw [findProperties, if_neg hu, hf]
          simp only
          rw [if_neg htr, if_neg htr]
          split <;> rfl
        simp only [h1]
        constructor
        · intro hc; cases hc
        · intro hc; exact absurd ((fallbackTriggered_iff _ _).mpr hc) htr
    · intro e hfb hempty hpos
      have htr : fallbackTriggered (normalizeFirst r).1 (normalizeFirst r).2 = true :=
        (fallbackTriggered_iff _ _).mpr ⟨hempty, hpos⟩
      have happ : applyFallback env (normalizeFirst r) = normalizeFirst r := by
        rw [applyFallback, hfb]
      have hie : (normalizeFirst r).1.isEmpty = true := by rw [hempty]; rfl
      rw [findProperties, if_neg hu, hf]
      simp only [htr, if_true, happ, hie]
      rw [hempty]
      rfl
  · intro env city state criteria selected
    rw [findProperties]
    by_cases hu : (urlsToSearch city state selected).isEmpty = true
    · rw [if_pos hu]; exact Nat.zero_le 2
    · rw [if_neg hu]
      cases env.first with
      | raised e =>
        show (1 : Nat) ≤ 2
        omega
      | returned r =>
        simp only
        split
        · split <;> omega
        · split <;> omega

/-- Witness for C2: `total_count = 5` with no properties triggers the
fallback (two calls) and a raised fallback leaves the original empty result's
error standing; `total_count = 0` does not trigger it. -/
theorem c2_fallback_policy_witness :
    (findProperties envEmpty5 "Austin" "TX" {} ["Zillow"]).2 = 2 ∧
    (findProperties envEmpty0 "Austin" "TX" {} ["Zillow"]).2 ≠ 2 ∧
    (findProperties envEmpty5 "Austin" "TX" {} ["Zillow"]).1 =
      .error (bigErrorMsg 5 0 1 ["Zillow"]) := by
  have h5 := c2_fallback_policy.1 envEmpty5 "Austin" "TX" {} ["Zillow"]
    (.dict true ⟨[], 5⟩) rfl (by decide)
  have h0 := c2_fallback_policy.1 envEmpty0 "Austin" "TX" {} ["Zillow"]
    (.dict true ⟨[], 0⟩) rfl (by decide)
  refine ⟨h5.1.mpr (by decide), fun hc => absurd (h0.1.mp hc) (by decide), ?_⟩
  exact h5.2 "boom" rfl (by decide) (by decide)

/-- **C3.** Given an Extraction Client error, the orchestrator returns a
string (`"Error in property search: ..."`) and invokes neither narrative
agent; given a successful extraction with zero properties it returns exactly
`"No properties found matching your criteria."`, again invoking no later
stage.  In both cases only the initial progress callback has fired. -/
theorem c3_orchestrator_short_circuits :
    (∀ (city state : String) (criteria : Criteria) (e mr vr : String),
      runSequentialAnalysis city state criteria (.error e) mr vr =
        (.str ("Error in property search: " ++ e), ⟨[cbSearch], 0, 0⟩)) ∧
    (∀ (city state : String) (criteria : Criteria) (t : Nat) (sw : List String)
        (mr vr : String),
      runSequentialAnalysis city state criteria (.success [] t sw) mr vr =
        (.str "No properties found matching your criteria.", ⟨[cbSearch], 0, 0⟩)) :=
  ⟨fun _ _ _ _ _ _ => rfl, fun _ _ _ _ _ _ _ => rfl⟩

/-- **C5.** On every complete (non-short-circuited) run the orchestrator
invokes the progress callback synchronously at its five checkpoints — eight
invocations carrying the fixed fractional values
0.2, 0.4, 0.5/0.7, 0.8/0.9, 0.95/1.0 — in strictly increasing order, each
with a non-empty status string; each narrative agent is invoked exactly
once.  (The callback's return value is not consumed: the model only records
the arguments passed.) -/
theorem c5_progress_checkpoints (city state : String) (criteria : Criteria)
    (props : List PropRecord) (t : Nat) (sw : List String) (mr vr : String)
    (h : props ≠ []) :
    ((runSequentialAnalysis city state criteria (.success props t sw) mr vr).2.callbacks.map
      Prod.fst = [0.2, 0.4, 0.5, 0.7, 0.8, 0.9, 0.95, 1.0]) ∧
    List.Chain' (· < ·)
      ((runSequentialAnalysis city state criteria (.success props t sw) mr vr).2.callbacks.map
        Prod.fst) ∧
    (∀ e ∈ (runSequentialAnalysis city state criteria (.success props t sw) mr vr).2.callbacks,
      e.2.1 ≠ "") ∧
    (runSequentialAnalysis city state criteria (.success props t sw) mr vr).2.marketCalls = 1 ∧
    (runSequentialAnalysis city state criteria (.success props t sw) mr vr).2.valuationCalls = 1 := by
  have hemp : props.isEmpty = false := by simp [List.isEmpty_iff, h]
  have htr : (runSequentialAnalysis city state criteria (.success props t sw) mr vr).2 =
      ⟨[cbSearch,
        (0.4, "Properties found", "✅ Found " ++ natStr props.length ++ " properties"),
        (0.5, "Analyzing market...",
         "📊 Market Analysis Agent: Analyzing market trends..."),
        (0.7, "Market analysis complete", "✅ Market analysis completed"),
        (0.8, "Evaluating properties...",
         "💰 Property Valuation Agent: Evaluating properties..."),
        (0.9, "Valuation complete", "✅ Property valuations completed"),
        (0.95, "Synthesizing results...", "🤖 Synthesizing final recommendations..."),
        (1.0, "Analysis complete", "🎉 Complete analysis ready!")],
       1, 1⟩ := by
    rw [runSequentialAnalysis]
    rw [if_neg (by rw [hemp]; exact Bool.false_ne_true)]
  rw [htr]
  refine ⟨rfl, ?_, ?_, rfl, rfl⟩
  · simp only [List.map]
    simp [cbSearch, List.chain'_cons]
    norm_num
  · intro e he
    simp only [List.mem_cons, List.not_mem_nil, or_false] at he
    rcases he with rfl | rfl | rfl | rfl | rfl | rfl | rfl | rfl <;>
      first
        | decide
        | (show ("Properties found" : String) ≠ ""
           decide)

/-- Witness for C5 on a one-property run. -/
theorem c5_progress_checkpoints_witness :
    (runSequentialAnalysis "Austin" "TX" {} (.success [sampleProp] 1 ["Zillow"])
      "m" "v").2.callbacks.map Prod.fst = [0.2, 0.4, 0.5, 0.7, 0.8, 0.9, 0.95, 1.0] :=
  (c5_progress_checkpoints "Austin" "TX" {} [sampleProp] 1 ["Zillow"] "m" "v"
    (by decide)).1

lemma valSummaries_number (i : Nat) (props : List PropRecord) :
    (buildValuationSummaries i props).map (fun s => s.number) =
      List.range' i props.length := by
  induction props generalizing i with
  | nil => rfl
  | cons p ps ih =>
    simp only [buildValuationSummaries, List.map_cons, List.length_cons]
    rw [ih]
    rfl

lemma valSummaries_address (i : Nat) (props : List PropRecord) :
    (buildValuationSummaries i props).map (fun s => s.address) =
      props.map (fun p => p.address.getD "Address not available") := by
  induction props generalizing i with
  | nil => rfl
  | cons p ps ih =>
    simp only [buildValuationSummaries, List.map_cons]
    rw [ih]
    rfl

lemma propertiesDisplay_blocks (i : Nat) (props : List PropRecord) :
    propertiesDisplay i props =
      ((List.range' i props.length).zip props).foldr
        (fun x acc => displayBlock x.1 x.2 ++ acc) "" := by
  induction props generalizing i with
  | nil => rfl
  | cons p ps ih =>
    simp only [propertiesDisplay, List.length_cons]
    rw [ih]
    rfl

/-- **C7.** On a successful run the property list flows unchanged and in
order into the final result (same list, `total_properties = len`), the
valuation summaries are numbered 1..n following the list's iteration order
(with the addresses in the same order), the Markdown synthesis renders block
`i` from property `i` for `i = 1..n`, and extracting section 2 from a
conforming valuation text recovers the fragment headed `**Property 2:`. -/
theorem c7_property_numbering_stable :
    (∀ (city state : String) (criteria : Criteria) (props : List PropRecord)
        (t : Nat) (sw : List String) (mr vr : String), props ≠ [] →
      (runSequentialAnalysis city state criteria (.success props t sw) mr vr).1 =
        .res ⟨props, mr, vr, finalSynthesis props mr vr, props.length⟩) ∧
    (∀ props : List PropRecord,
      (buildValuationSummaries 1 props).map (fun s => s.number) =
        List.range' 1 props.length) ∧
    (∀ props : List PropRecord,
      (buildValuationSummaries 1 props).map (fun s => s.address) =
        props.map (fun p => p.address.getD "Address not available")) ∧
    (∀ props : List PropRecord,
      propertiesDisplay 1 props =
        ((List.range' 1 props.length).zip props).foldr
          (fun x acc => displayBlock x.1 x.2 ++ acc) "") ∧
    extractPropertyValuation conformText 2 "456 Oak Ave" =
      some "**Property 2: 456 Oak Ave**\n• Value: High" := by
  refine ⟨?_, fun props => valSummaries_number 1 props,
    fun props => valSummaries_address 1 props,
    fun props => propertiesDisplay_blocks 1 props, by decide⟩
  intro city state criteria props t sw mr vr h
  have hemp : props.isEmpty = false := by simp [List.isEmpty_iff, h]
  rw [runSequentialAnalysis]
  rw [if_neg (by rw [hemp]; exact Bool.false_ne_true)]

/-- Witness for C7's first clause on a one-property run. -/
theorem c7_property_numbering_stable_witness :
    (runSequentialAnalysis "Austin" "TX" {} (.success [sampleProp] 1 ["Zillow"])
      "m" "v").1 =
      .res ⟨[sampleProp], "m", "v", finalSynthesis [sampleProp] "m" "v", 1⟩ :=
  c7_property_numbering_stable.1 "Austin" "TX" {} [sampleProp] 1 ["Zillow"] "m" "v"
    (by decide)

/-- **C10 (implicit).** A result dictionary of `find_properties_direct`
without an error key always carries a non-empty property list, so when the
orchestrator is driven by this client its zero-properties branch — the exact
string `"No properties found matching your criteria."` — is unreachable. -/
theorem c10_no_properties_branch_unreachable :
    (∀ (env : ExtractEnv) (city state : String) (criteria : Criteria)
        (selected : List String) (p : List PropRecord) (t : Nat) (sw : List String),
      (findProperties env city state criteria selected).1 = .success p t sw →
      p ≠ []) ∧
    (∀ (env : ExtractEnv) (city state : String) (criteria : Criteria)
        (selected : List String) (mr vr : String),
      (runWithClient env city state criteria selected mr vr).1 ≠
        .str "No properties found matching your criteria.") := by
  constructor
  · intro env city state criteria selected p t sw h
    exact (findProperties_success_inv h).1
  · intro env city state criteria selected mr vr
    rw [runWithClient]
    cases hr : (findProperties env city state criteria selected).1 with
    | error e =>
      intro hc
      have hcc : AnalysisOutcome.str ("Error in property search: " ++ e) =
          .str "No properties found matching your criteria." := hc
      injection hcc with hs
      exact errStr_ne e hs
    | success p tc sw =>
      have hp := (findProperties_success_inv hr).1
      have hemp : p.isEmpty = false := by simp [List.isEmpty_iff, hp]
      intro hc
      rw [runSequentialAnalysis] at hc
      rw [if_neg (by rw [hemp]; exact Bool.false_ne_true)] at hc
      cases hc

/-- Witness for C10's first clause on a one-property success. -/
theorem c10_no_properties_branch_unreachable_witness :
    ([sampleProp] : List PropRecord) ≠ [] :=
  c10_no_properties_branch_unreachable.1 envOneProp "Austin" "TX" {} ["Zillow"]
    [sampleProp] 1 ["Zillow"] (by decide)

end RealEstateUS
